import Mathlib

/-!
Verification of the Color Match Runner game component.

This development is a shallow embedding of the game logic of the
`ColorMatchRunner` React component (the per-frame simulation step, the
collision/scoring loop, the input adapter and the session lifecycle
handlers).  Geometry is modelled over `ℚ` (JavaScript numbers on the
inputs the game produces stay within exact decimal arithmetic except for
the sine-derived bounce offset, which is passed in as an arbitrary
rational parameter `bh`), scores and levels over `ℕ`, and calls to
`Math.random()` are abstracted as oracle parameters supplied to each
step.
-/

namespace ColorMatch

/-- Entry of the `ALL_COLORS` palette: `{ name, value, shadow }`. -/
structure Color where
  name : String
  value : String
  shadow : String
deriving DecidableEq, Repr

/-- The fixed five-colour palette `ALL_COLORS` of the component. -/
def ALL_COLORS : List Color :=
  [ { name := "Red", value := "#ff3b30", shadow := "#ff3b3080" },
    { name := "Blue", value := "#007aff", shadow := "#007aff80" },
    { name := "Yellow", value := "#ffcc00", shadow := "#ffcc0080" },
    { name := "Green", value := "#34c759", shadow := "#34c75980" },
    { name := "Purple", value := "#af52de", shadow := "#af52de80" } ]

/-- Level derived from the score in `animate`:
`Math.min(Math.floor(score / 200) + 1, 5)`. -/
def levelOfScore (score : ℕ) : ℕ :=
  min (score / 200 + 1) 5

/-- Colour list for a level, `getCurrentLevelColors`:
`ALL_COLORS.slice(0, Math.min(currentLevel + 1, 5))`. -/
def getCurrentLevelColors (currentLevel : ℕ) : List Color :=
  ALL_COLORS.take (min (currentLevel + 1) 5)

/-- The ball record of the game state. -/
structure Ball where
  x : ℚ
  y : ℚ
  colorIndex : ℕ
  radius : ℚ
  bounceOffset : ℚ
  bounceSpeed : ℚ
deriving DecidableEq, Repr

/-- An obstacle (gate) record. -/
structure Obstacle where
  x : ℚ
  y : ℚ
  width : ℚ
  height : ℚ
  colorIndex : ℕ
  passed : Bool
deriving DecidableEq, Repr

/-- A particle record; `life` is a frame count, decremented each frame. -/
structure Particle where
  x : ℚ
  y : ℚ
  vx : ℚ
  vy : ℚ
  life : ℤ
  color : String
deriving DecidableEq, Repr

/-- Kind of the modal popup, distinguished in the code by
`popupText.startsWith("Game Over")`. -/
inductive Popup where
  | gameOver : Popup
  | levelUp : Popup
deriving DecidableEq, Repr

/-- The combined mutable state: the `gameStateRef` record plus the React
state cells `score`, `level`, `highScore` and the popup. -/
structure GameState where
  ball : Ball
  obstacles : List Obstacle
  gameSpeed : ℚ
  obstacleTimer : ℕ
  gameRunning : Bool
  gameStarted : Bool
  particles : List Particle
  score : ℕ
  level : ℕ
  highScore : ℕ
  popup : Option Popup
deriving DecidableEq, Repr

/-- Canvas logical height (the `<canvas>` element is 320 by 600). -/
def canvasHeight : ℚ := 600

/-- Canvas logical width. -/
def canvasWidth : ℚ := 320

/-- Gate width constant of the simulation step. -/
def gateWidth : ℚ := 140

/-- Gate height constant of the simulation step. -/
def gateHeight : ℚ := 80

/-- Fixed horizontal spawn position: `canvasWidth / 2 - gateWidth / 2`. -/
def centerX : ℚ := canvasWidth / 2 - gateWidth / 2

/-- One `Math.random()` quadruple consumed per particle by
`createParticles`; each component is meant to lie in `[0, 1)`. -/
def RandQuad : Type := ℚ × ℚ × ℚ × ℚ

/-- The `changeColor` handler: while the game is running, advance the
ball colour index to `(index + 1) % colors.length` where `colors` is the
colour list of the captured `level`. -/
def changeColor (lv : ℕ) (g : GameState) : GameState :=
  if g.gameRunning then
    { g with ball :=
      { g.ball with colorIndex :=
        (g.ball.colorIndex + 1) % (getCurrentLevelColors lv).length } }
  else g

/-- One particle built by an iteration of the `createParticles` loop,
with the four `Math.random()` draws passed in as `r`. -/
def mkParticle (x y : ℚ) (color : String) (isSuccess : Bool)
    (r : RandQuad) : Particle :=
  { x := x + (r.1 - 1/2) * 40,
    y := y + (r.2.1 - 1/2) * 40,
    vx := (r.2.2.1 - 1/2) * (if isSuccess then 8 else 4),
    vy := (r.2.2.2 - 1/2) * (if isSuccess then 8 else 4) - 2,
    life := if isSuccess then 60 else 30,
    color := if isSuccess then color else "#ff4444" }

/-- The `createParticles` burst: 15 particles on success, 8 on failure;
`rs` supplies the random draws of the successive loop iterations. -/
def createParticles (rs : ℕ → RandQuad) (x y : ℚ) (color : String)
    (isSuccess : Bool) : List Particle :=
  (List.range (if isSuccess then 15 else 8)).map
    (fun i => mkParticle x y color isSuccess (rs i))

/-- The `handleGameOver` callback: stop the game, update the high score
to `Math.max(score, highScore)` (with the React `score` captured at the
start of the frame), and show the game-over popup. -/
def handleGameOver (frameScore : ℕ) (g : GameState) : GameState :=
  { g with gameRunning := false,
           highScore := max frameScore g.highScore,
           popup := some Popup.gameOver }

/-- Axis-aligned bounding-box overlap test between the ball hit-box
(shifted by the bounce height `bh`) and an obstacle, as in `animate`. -/
def collides (ball : Ball) (bh : ℚ) (o : Obstacle) : Bool :=
  decide (ball.x + ball.radius > o.x) &&
  decide (ball.x - ball.radius < o.x + o.width) &&
  decide (ball.y + ball.radius + bh > o.y) &&
  decide (ball.y - ball.radius + bh < o.y + o.height)

/-- The first line of the obstacle filter body: `obstacle.y += gameSpeed`. -/
def moveObstacle (speed : ℚ) (o : Obstacle) : Obstacle :=
  { o with y := o.y + speed }

/-- Mark-as-passed step: a gate whose `y` exceeds
`ball.y + ball.radius + 20` without having collided is marked passed. -/
def markPassed (ball : Ball) (o : Obstacle) : Obstacle :=
  if !o.passed && decide (o.y > ball.y + ball.radius + 20) then
    { o with passed := true }
  else o

/-- Survival test at the end of the obstacle filter:
`obstacle.y < canvasHeight + 50`. -/
def keepObstacle (o : Obstacle) : Bool :=
  decide (o.y < canvasHeight + 50)

/-- The functional `setScore` update of a scoring collision: add 10,
recompute the level from the new score, and when it exceeds the captured
`level` show the level-up popup, stop the loop and commit the new level. -/
def scoreUpdate (lv : ℕ) (g : GameState) : GameState :=
  let newScore := g.score + 10
  let newLevel := levelOfScore newScore
  if newLevel > lv then
    { g with score := newScore,
             level := newLevel,
             gameRunning := false,
             popup := some Popup.levelUp }
  else
    { g with score := newScore }

/-- Processing of one obstacle by the filter body of `animate`:
move the gate, test collision; on a first collision either score
(matching colours) or end the game (mismatch, gate discarded); otherwise
possibly mark the gate passed; finally drop gates past the bottom edge.
`lv` and `frameScore` are the React `level` and `score` captured by the
effect closure; `rs` abstracts the `Math.random()` draws of
`createParticles`.  The `colors[obstacle.colorIndex]` lookup is total in
the runs the game produces; out-of-range indices take a default. -/
def processObstacle (lv frameScore : ℕ) (bh : ℚ) (rs : ℕ → RandQuad)
    (g : GameState) (o0 : Obstacle) : GameState × Option Obstacle :=
  let o := moveObstacle g.gameSpeed o0
  if collides g.ball bh o && !o.passed then
    if g.ball.colorIndex = o.colorIndex then
      let g1 := scoreUpdate lv g
      let g2 := { g1 with particles := g1.particles ++
        (createParticles rs (o.x + o.width / 2) (o.y + o.height / 2)
          (((getCurrentLevelColors lv).getD o.colorIndex
            { name := "", value := "", shadow := "" }).value) true) }
      let o1 := { o with passed := true }
      (g2, if keepObstacle o1 then some o1 else none)
    else
      let g1 := { g with particles := g.particles ++
        (createParticles rs g.ball.x g.ball.y "#ff4444" false) }
      (handleGameOver frameScore g1, none)
  else
    let o1 := markPassed g.ball o
    (g, if keepObstacle o1 then some o1 else none)

/-- The whole obstacle filter pass: fold `processObstacle` over the gate
collection in insertion order, keeping the surviving gates. -/
def updateObstacles (lv frameScore : ℕ) (bh : ℚ) (rs : ℕ → RandQuad)
    (g : GameState) : GameState :=
  let r := g.obstacles.foldl
    (fun acc o =>
      let p := processObstacle lv frameScore bh rs acc.1 o
      (p.1, match p.2 with
            | some ob => acc.2 ++ [ob]
            | none => acc.2))
    (g, ([] : List Obstacle))
  { r.1 with obstacles := r.2 }

/-- Per-frame particle integration: move by velocity, apply gravity
`0.3` to `vy`, decrement `life`. -/
def stepParticle (p : Particle) : Particle :=
  { p with x := p.x + p.vx,
           y := p.y + p.vy,
           vy := p.vy + 3/10,
           life := p.life - 1 }

/-- The particle filter of `animate`: update every particle and keep
those with `life > 0`. -/
def updateParticles (ps : List Particle) : List Particle :=
  (ps.map stepParticle).filter (fun p => decide (0 < p.life))

/-- Spawn threshold `Math.max(100 - Math.floor(score / 200), 50)`.
Natural subtraction truncates at 0, which agrees with the JavaScript
real-valued subtraction here because the max with 50 absorbs every value
the truncation changes. -/
def obstacleFrequency (score : ℕ) : ℕ :=
  max (100 - score / 200) 50

/-- The gate-generation block of `animate`: increment the spawn timer;
when it reaches `obstacleFrequency score`, push one new gate at the
fixed centre `x`, just off-screen above, with colour index
`Math.floor(u * colors.length)` (`u` is the `Math.random()` draw), and
reset the timer. -/
def spawnStep (frameScore lv : ℕ) (u : ℚ) (timer : ℕ)
    (obs : List Obstacle) : ℕ × List Obstacle :=
  let t := timer + 1
  if obstacleFrequency frameScore ≤ t then
    (0, obs ++
      [{ x := centerX, y := -gateHeight, width := gateWidth,
         height := gateHeight,
         colorIndex := (⌊u * ((getCurrentLevelColors lv).length : ℚ)⌋).toNat,
         passed := false }])
  else (t, obs)

/-- Game-speed recomputation at the start of a frame:
`2 + Math.floor(score / 100) * 0.25`. -/
def gameSpeedOfScore (score : ℕ) : ℚ :=
  2 + (score / 100 : ℕ) * (1/4)

/-- The `handlePopupAction` acknowledgment handler.  The game-over
branch resets the score, gates, particles, ball colour, speed and timer
but keeps the level and the high score; the level-up branch resumes with
cleared gates, particles and timer, retaining score, level and ball
colour. -/
def handlePopupAction (g : GameState) : GameState :=
  if g.popup = some Popup.gameOver then
    { g with popup := none,
             score := 0,
             obstacles := [],
             particles := [],
             ball := { g.ball with colorIndex := 0 },
             gameSpeed := 2 + ((g.level : ℚ) - 1) * (1/4),
             obstacleTimer := 0,
             gameRunning := true,
             gameStarted := true }
  else
    { g with popup := none,
             gameRunning := true,
             gameStarted := true,
             obstacles := [],
             particles := [],
             obstacleTimer := 0 }

/-- Random oracle used by concrete evaluations: every draw is 0. -/
def rs0 : ℕ → RandQuad := fun _ => ((0 : ℚ), (0 : ℚ), (0 : ℚ), (0 : ℚ))

/-- The initial ball of `gameStateRef`. -/
def ball0 : Ball :=
  { x := 150, y := 500, colorIndex := 0, radius := 20,
    bounceOffset := 0, bounceSpeed := 3/20 }

/-- A freshly started session state. -/
def g0 : GameState :=
  { ball := ball0, obstacles := [], gameSpeed := 2, obstacleTimer := 0,
    gameRunning := true, gameStarted := true, particles := [],
    score := 0, level := 1, highScore := 0, popup := none }

/-- A gate positioned so that it overlaps the ball hit-box after one
movement step of speed 2, with colour index 0 (matching `ball0`). -/
def gate0 : Obstacle :=
  { x := 90, y := 448, width := 140, height := 80, colorIndex := 0,
    passed := false }

/-- The same gate with colour index 1 (mismatching `ball0`). -/
def gate1 : Obstacle :=
  { gate0 with colorIndex := 1 }

/-- A sample particle with two frames of life left. -/
def particle0 : Particle :=
  { x := 10, y := 20, vx := 1, vy := -2, life := 2, color := "#ff4444" }

section Lemmas

/-- Length of the active colour list in closed form. -/
lemma length_getCurrentLevelColors (n : ℕ) :
    (getCurrentLevelColors n).length = min (n + 1) 5 := by
  unfold getCurrentLevelColors
  rw [List.length_take]
  have h5 : ALL_COLORS.length = 5 := rfl
  rw [h5, min_assoc, min_self]

/-- The active colour list is never empty. -/
lemma length_getCurrentLevelColors_pos (n : ℕ) :
    0 < (getCurrentLevelColors n).length := by
  rw [length_getCurrentLevelColors]
  exact lt_min (Nat.succ_pos n) (by norm_num)

@[simp]
lemma changeColor_gameRunning (lv : ℕ) (g : GameState) :
    (changeColor lv g).gameRunning = g.gameRunning := by
  unfold changeColor
  split <;> rfl

lemma changeColor_colorIndex_of_running (lv : ℕ) (g : GameState)
    (h : g.gameRunning = true) :
    (changeColor lv g).ball.colorIndex
      = (g.ball.colorIndex + 1) % (getCurrentLevelColors lv).length := by
  simp [changeColor, h]

lemma changeColor_iterate (lv : ℕ) (g : GameState)
    (hrun : g.gameRunning = true)
    (hi : g.ball.colorIndex < (getCurrentLevelColors lv).length) (k : ℕ) :
    ((changeColor lv)^[k] g).ball.colorIndex
      = (g.ball.colorIndex + k) % (getCurrentLevelColors lv).length ∧
    ((changeColor lv)^[k] g).gameRunning = true := by
  induction k with
  | zero =>
    exact ⟨by simp [Nat.mod_eq_of_lt hi], by simpa using hrun⟩
  | succ k ih =>
    obtain ⟨ih1, ih2⟩ := ih
    have hs : (changeColor lv)^[k + 1] g
        = changeColor lv ((changeColor lv)^[k] g) :=
      Function.iterate_succ_apply' _ _ _
    rw [hs]
    refine ⟨?_, by rw [changeColor_gameRunning]; exact ih2⟩
    rw [changeColor_colorIndex_of_running lv _ ih2, ih1,
      Nat.mod_add_mod, Nat.add_assoc]

@[simp]
lemma moveObstacle_passed (s : ℚ) (o : Obstacle) :
    (moveObstacle s o).passed = o.passed := rfl

@[simp]
lemma moveObstacle_colorIndex (s : ℚ) (o : Obstacle) :
    (moveObstacle s o).colorIndex = o.colorIndex := rfl

lemma markPassed_of_passed (b : Ball) (o : Obstacle) (hp : o.passed = true) :
    markPassed b o = o := by
  simp [markPassed, hp]

lemma markPassed_passed_mono (b : Ball) (o : Obstacle) (hp : o.passed = true) :
    (markPassed b o).passed = true := by
  rw [markPassed_of_passed b o hp]; exact hp

lemma scoreUpdate_score (lv : ℕ) (g : GameState) :
    (scoreUpdate lv g).score = g.score + 10 := by
  unfold scoreUpdate
  dsimp only
  split <;> rfl

lemma scoreUpdate_popup (lv : ℕ) (g : GameState) :
    (scoreUpdate lv g).popup =
      if lv < levelOfScore (g.score + 10) then some Popup.levelUp
      else g.popup := by
  unfold scoreUpdate
  dsimp only
  split <;> rfl

lemma scoreUpdate_gameRunning (lv : ℕ) (g : GameState) :
    (scoreUpdate lv g).gameRunning =
      if lv < levelOfScore (g.score + 10) then false
      else g.gameRunning := by
  unfold scoreUpdate
  dsimp only
  split <;> rfl

lemma scoreUpdate_level (lv : ℕ) (g : GameState) :
    (scoreUpdate lv g).level =
      if lv < levelOfScore (g.score + 10) then levelOfScore (g.score + 10)
      else g.level := by
  unfold scoreUpdate
  dsimp only
  split <;> rfl

lemma scoreUpdate_highScore (lv : ℕ) (g : GameState) :
    (scoreUpdate lv g).highScore = g.highScore := by
  unfold scoreUpdate
  dsimp only
  split <;> rfl

lemma processObstacle_eq_of_passed (lv fs : ℕ) (bh : ℚ) (rs : ℕ → RandQuad)
    (g : GameState) (o0 : Obstacle) (hp : o0.passed = true) :
    processObstacle lv fs bh rs g o0 =
      (g, if keepObstacle (moveObstacle g.gameSpeed o0)
          then some (moveObstacle g.gameSpeed o0)
          else none) := by
  rw [processObstacle]
  simp only [moveObstacle_passed, hp, Bool.not_true, Bool.and_false,
    Bool.false_eq_true, if_false,
    markPassed_of_passed g.ball (moveObstacle g.gameSpeed o0)
      (by rw [moveObstacle_passed]; exact hp)]

lemma processObstacle_eq_of_no_collision (lv fs : ℕ) (bh : ℚ)
    (rs : ℕ → RandQuad) (g : GameState) (o0 : Obstacle)
    (hc : collides g.ball bh (moveObstacle g.gameSpeed o0) = false) :
    processObstacle lv fs bh rs g o0 =
      (g, if keepObstacle (markPassed g.ball (moveObstacle g.gameSpeed o0))
          then some (markPassed g.ball (moveObstacle g.gameSpeed o0))
          else none) := by
  rw [processObstacle]
  simp only [hc, Bool.false_and, Bool.false_eq_true, if_false]

lemma processObstacle_eq_of_match (lv fs : ℕ) (bh : ℚ) (rs : ℕ → RandQuad)
    (g : GameState) (o0 : Obstacle) (hp : o0.passed = false)
    (hc : collides g.ball bh (moveObstacle g.gameSpeed o0) = true)
    (hm : g.ball.colorIndex = o0.colorIndex) :
    processObstacle lv fs bh rs g o0 =
      (let o := moveObstacle g.gameSpeed o0
       let g1 := scoreUpdate lv g
       let g2 := { g1 with particles := g1.particles ++
         (createParticles rs (o.x + o.width / 2) (o.y + o.height / 2)
           (((getCurrentLevelColors lv).getD o.colorIndex
             { name := "", value := "", shadow := "" }).value) true) }
       let o1 := { o with passed := true }
       (g2, if keepObstacle o1 then some o1 else none)) := by
  rw [processObstacle]
  simp only [moveObstacle_passed, hp, hc, moveObstacle_colorIndex, hm,
    Bool.not_false, Bool.and_true, if_true]

lemma processObstacle_eq_of_mismatch (lv fs : ℕ) (bh : ℚ)
    (rs : ℕ → RandQuad) (g : GameState) (o0 : Obstacle)
    (hp : o0.passed = false)
    (hc : collides g.ball bh (moveObstacle g.gameSpeed o0) = true)
    (hm : g.ball.colorIndex ≠ o0.colorIndex) :
    processObstacle lv fs bh rs g o0 =
      (handleGameOver fs
        { g with particles := g.particles ++
          (createParticles rs g.ball.x g.ball.y "#ff4444" false) },
       none) := by
  rw [processObstacle]
  simp only [moveObstacle_passed, hp, hc, moveObstacle_colorIndex, hm,
    Bool.not_false, Bool.and_true, if_true, if_false]

end Lemmas

/-- C1: for every score `s ≥ 0`, the derived level equals
`min(floor(s/200)+1, 5)`; as a function of the score it is
non-decreasing and never exceeds 5. -/
theorem level_derivation_correct (s t : ℕ) (h : s ≤ t) :
    levelOfScore s = min (s / 200 + 1) 5 ∧
    levelOfScore s ≤ levelOfScore t ∧
    levelOfScore t ≤ 5 := by
  refine ⟨rfl, ?_, min_le_right _ _⟩
  exact min_le_min
    (Nat.add_le_add_right (Nat.div_le_div_right h) 1) le_rfl

/-- Witness for C1 at the spec scenario scores 250 and 650. -/
theorem level_derivation_correct_witness :
    levelOfScore 250 = min (250 / 200 + 1) 5 ∧
    levelOfScore 250 ≤ levelOfScore 650 ∧
    levelOfScore 650 ≤ 5 :=
  level_derivation_correct 250 650 (by decide)

/-- C2: for every level `L ≥ 1`, the number of active colours equals
`min(L+1, 5)`; it is non-decreasing in the level, capped at 5, and is
always at least 2 (in particular never 0). -/
theorem active_color_count_correct (L M : ℕ) (h1 : 1 ≤ L) (h2 : L ≤ M) :
    (getCurrentLevelColors L).length = min (L + 1) 5 ∧
    (getCurrentLevelColors L).length ≤ (getCurrentLevelColors M).length ∧
    (getCurrentLevelColors M).length ≤ 5 ∧
    2 ≤ (getCurrentLevelColors L).length := by
  rw [length_getCurrentLevelColors, length_getCurrentLevelColors]
  refine ⟨rfl, min_le_min (by omega) le_rfl, min_le_right _ _,
    le_min (by omega) (by norm_num)⟩

/-- Witness for C2 at levels 1 and 4. -/
theorem active_color_count_correct_witness :
    (getCurrentLevelColors 1).length = min (1 + 1) 5 ∧
    (getCurrentLevelColors 1).length ≤ (getCurrentLevelColors 4).length ∧
    (getCurrentLevelColors 4).length ≤ 5 ∧
    2 ≤ (getCurrentLevelColors 1).length :=
  active_color_count_correct 1 4 (by decide) (by decide)

/-- C3: while the session is running, the advance-colour operation maps
the ball colour index `i` to `(i+1) mod currentColorCount`, and for
every starting index below `currentColorCount`, applying it
`currentColorCount` times returns the original index. -/
theorem color_advance_cyclic (lv : ℕ) (g : GameState)
    (hrun : g.gameRunning = true)
    (hi : g.ball.colorIndex < (getCurrentLevelColors lv).length) :
    (changeColor lv g).ball.colorIndex
      = (g.ball.colorIndex + 1) % (getCurrentLevelColors lv).length ∧
    ((changeColor lv)^[(getCurrentLevelColors lv).length] g).ball.colorIndex
      = g.ball.colorIndex := by
  refine ⟨changeColor_colorIndex_of_running lv g hrun, ?_⟩
  rw [(changeColor_iterate lv g hrun hi _).1, Nat.add_mod_right,
    Nat.mod_eq_of_lt hi]

/-- Witness for C3 on the freshly started state at level 1. -/
theorem color_advance_cyclic_witness :
    (changeColor 1 g0).ball.colorIndex
      = (g0.ball.colorIndex + 1) % (getCurrentLevelColors 1).length ∧
    ((changeColor 1)^[(getCurrentLevelColors 1).length] g0).ball.colorIndex
      = g0.ball.colorIndex :=
  color_advance_cyclic 1 g0 (by decide) (by decide)

/-- C4: while the session is running, a first overlap of the ball
hit-box with a not-yet-passed gate of the same colour index increases
the score by exactly 10, marks the gate passed, and does not transition
the session to the game-over state. -/
theorem matching_collision_scores (lv fs : ℕ) (bh : ℚ) (rs : ℕ → RandQuad)
    (g : GameState) (o0 : Obstacle)
    (hrun : g.gameRunning = true) (hpopup : g.popup = none)
    (hpass : o0.passed = false)
    (hcol : collides g.ball bh (moveObstacle g.gameSpeed o0) = true)
    (hmatch : g.ball.colorIndex = o0.colorIndex) :
    (processObstacle lv fs bh rs g o0).1.score = g.score + 10 ∧
    (processObstacle lv fs bh rs g o0).1.popup ≠ some Popup.gameOver ∧
    Option.all (fun ob => ob.passed) (processObstacle lv fs bh rs g o0).2
      = true := by
  rw [processObstacle_eq_of_match lv fs bh rs g o0 hpass hcol hmatch]
  dsimp only
  refine ⟨scoreUpdate_score lv g, ?_, ?_⟩
  · show (scoreUpdate lv g).popup ≠ some Popup.gameOver
    rw [scoreUpdate_popup, hpopup]
    split <;> simp
  · split <;> simp

/-- Witness for C4: the fresh session hits a matching gate. -/
theorem matching_collision_scores_witness :
    (processObstacle 1 0 0 rs0 g0 gate0).1.score = g0.score + 10 ∧
    (processObstacle 1 0 0 rs0 g0 gate0).1.popup ≠ some Popup.gameOver ∧
    Option.all (fun ob => ob.passed) (processObstacle 1 0 0 rs0 g0 gate0).2
      = true :=
  matching_collision_scores 1 0 0 rs0 g0 gate0 (by decide) (by decide)
    (by decide)
    (by norm_num [collides, moveObstacle, g0, ball0, gate0]) (by decide)

/-- C5: while the session is running, a first overlap of the ball
hit-box with a not-yet-passed gate of a different colour index
transitions the session to the terminal game-over state, does not
increase the score, and removes the colliding gate. -/
theorem mismatching_collision_ends (lv fs : ℕ) (bh : ℚ)
    (rs : ℕ → RandQuad) (g : GameState) (o0 : Obstacle)
    (hrun : g.gameRunning = true) (hpopup : g.popup = none)
    (hpass : o0.passed = false)
    (hcol : collides g.ball bh (moveObstacle g.gameSpeed o0) = true)
    (hmatch : g.ball.colorIndex ≠ o0.colorIndex) :
    (processObstacle lv fs bh rs g o0).1.popup = some Popup.gameOver ∧
    (processObstacle lv fs bh rs g o0).1.gameRunning = false ∧
    (processObstacle lv fs bh rs g o0).1.score = g.score ∧
    (processObstacle lv fs bh rs g o0).2 = none := by
  rw [processObstacle_eq_of_mismatch lv fs bh rs g o0 hpass hcol hmatch]
  exact ⟨rfl, rfl, rfl, rfl⟩

/-- Witness for C5: the fresh session hits a mismatched gate. -/
theorem mismatching_collision_ends_witness :
    (processObstacle 1 0 0 rs0 g0 gate1).1.popup = some Popup.gameOver ∧
    (processObstacle 1 0 0 rs0 g0 gate1).1.gameRunning = false ∧
    (processObstacle 1 0 0 rs0 g0 gate1).1.score = g0.score ∧
    (processObstacle 1 0 0 rs0 g0 gate1).2 = none :=
  mismatching_collision_ends 1 0 0 rs0 g0 gate1 (by decide) (by decide)
    (by decide)
    (by norm_num [collides, moveObstacle, g0, ball0, gate1, gate0])
    (by decide)

/-- C6: a gate's passed flag transitions false-to-true at most once and
never back to false, and points are awarded from a gate only on the
transition where passed becomes true, so no gate contributes to the
score more than once. -/
theorem gate_passed_scored_once (lv fs : ℕ) (bh : ℚ) (rs : ℕ → RandQuad)
    (g : GameState) (o0 : Obstacle) :
    (o0.passed = true →
      (processObstacle lv fs bh rs g o0).1.score = g.score ∧
      Option.all (fun ob => ob.passed)
        (processObstacle lv fs bh rs g o0).2 = true) ∧
    ((processObstacle lv fs bh rs g o0).1.score ≠ g.score →
      o0.passed = false ∧
      (processObstacle lv fs bh rs g o0).1.score = g.score + 10 ∧
      Option.all (fun ob => ob.passed)
        (processObstacle lv fs bh rs g o0).2 = true ∧
      collides g.ball bh (moveObstacle g.gameSpeed o0) = true ∧
      g.ball.colorIndex = o0.colorIndex) := by
  by_cases hp : o0.passed = true
  · rw [processObstacle_eq_of_passed lv fs bh rs g o0 hp]
    constructor
    · intro _
      refine ⟨rfl, ?_⟩
      dsimp only
      split <;> simp [hp]
    · intro hne
      exact absurd rfl hne
  · have hp' : o0.passed = false := by simpa using hp
    by_cases hc : collides g.ball bh (moveObstacle g.gameSpeed o0) = true
    · by_cases hm : g.ball.colorIndex = o0.colorIndex
      · rw [processObstacle_eq_of_match lv fs bh rs g o0 hp' hc hm]
        dsimp only
        constructor
        · intro hptrue
          exact absurd hptrue hp
        · intro _
          refine ⟨hp', scoreUpdate_score lv g, ?_, hc, hm⟩
          split <;> simp
      · rw [processObstacle_eq_of_mismatch lv fs bh rs g o0 hp' hc hm]
        constructor
        · intro hptrue
          exact absurd hptrue hp
        · intro hne
          exact absurd rfl hne
    · have hc' : collides g.ball bh (moveObstacle g.gameSpeed o0) = false := by
        simpa using hc
      rw [processObstacle_eq_of_no_collision lv fs bh rs g o0 hc']
      constructor
      · intro hptrue
        exact absurd hptrue hp
      · intro hne
        exact absurd rfl hne

/-- C7: a simulation step decrements every surviving particle's lifetime
by exactly 1; a particle is removed exactly when its lifetime reaches
zero, no particle with a non-positive lifetime remains after the step,
and lifetimes never go negative. -/
theorem particle_lifetime_step (ps : List Particle)
    (h : ∀ p ∈ ps, 0 < p.life) :
    (∀ (rs : ℕ → RandQuad) (x y : ℚ) (c : String) (b : Bool),
      ∀ q ∈ createParticles rs x y c b, 0 < q.life) ∧
    (∀ p ∈ ps, (stepParticle p).life = p.life - 1) ∧
    (∀ p ∈ ps, 0 ≤ (stepParticle p).life) ∧
    (∀ q ∈ updateParticles ps, 0 < q.life) ∧
    (∀ p ∈ ps, (stepParticle p ∈ updateParticles ps ↔ p.life ≠ 1)) := by
  refine ⟨?_, fun p _ => rfl, fun p hp => ?_, fun q hq => ?_, fun p hp => ?_⟩
  · intro rs x y c b q hq
    rw [createParticles, List.mem_map] at hq
    obtain ⟨i, _, hi⟩ := hq
    rw [← hi]
    cases b <;> simp [mkParticle]
  · have h1 := h p hp
    show (0:ℤ) ≤ p.life - 1
    omega
  · rw [updateParticles, List.mem_filter] at hq
    simpa using hq.2
  · have h1 := h p hp
    constructor
    · intro hmem
      rw [updateParticles, List.mem_filter] at hmem
      have h2 : (0:ℤ) < p.life - 1 := by simpa [stepParticle] using hmem.2
      omega
    · intro hne
      rw [updateParticles, List.mem_filter]
      refine ⟨List.mem_map_of_mem _ hp, ?_⟩
      simp only [stepParticle, decide_eq_true_eq]
      omega

/-- Witness for C7 on a one-particle collection with two frames left. -/
theorem particle_lifetime_step_witness :
    (∀ (rs : ℕ → RandQuad) (x y : ℚ) (c : String) (b : Bool),
      ∀ q ∈ createParticles rs x y c b, 0 < q.life) ∧
    (∀ p ∈ [particle0], (stepParticle p).life = p.life - 1) ∧
    (∀ p ∈ [particle0], 0 ≤ (stepParticle p).life) ∧
    (∀ q ∈ updateParticles [particle0], 0 < q.life) ∧
    (∀ p ∈ [particle0],
      (stepParticle p ∈ updateParticles [particle0] ↔ p.life ≠ 1)) :=
  particle_lifetime_step [particle0] (by decide)

/-- C8: every simulation step increments the spawn timer; the spawn
threshold is non-increasing in the score with floor 50; when the timer
reaches the threshold, exactly one gate is appended at the fixed centre
`x`, off-screen above, not passed, with a colour index inside
`[0, currentColorCount)`, and the timer resets to zero. -/
theorem gate_spawn_step (fs lv timer : ℕ) (u : ℚ) (obs : List Obstacle)
    (h0 : 0 ≤ u) (h1 : u < 1) :
    (∀ s t : ℕ, s ≤ t → obstacleFrequency t ≤ obstacleFrequency s ∧
      50 ≤ obstacleFrequency t) ∧
    (timer + 1 < obstacleFrequency fs →
      spawnStep fs lv u timer obs = (timer + 1, obs)) ∧
    (obstacleFrequency fs ≤ timer + 1 →
      spawnStep fs lv u timer obs =
        (0, obs ++
          [{ x := centerX, y := -gateHeight, width := gateWidth,
             height := gateHeight,
             colorIndex :=
               (⌊u * ((getCurrentLevelColors lv).length : ℚ)⌋).toNat,
             passed := false }]) ∧
      (⌊u * ((getCurrentLevelColors lv).length : ℚ)⌋).toNat
        < (getCurrentLevelColors lv).length ∧
      -gateHeight < (0:ℚ)) := by
  refine ⟨fun s t hst => ⟨?_, le_max_right _ _⟩, fun hlt => ?_, fun hge => ?_⟩
  · exact max_le_max
      (Nat.sub_le_sub_left (Nat.div_le_div_right hst) 100) le_rfl
  · rw [spawnStep]
    rw [if_neg (by omega)]
  · refine ⟨?_, ?_, by norm_num [gateHeight]⟩
    · rw [spawnStep]
      rw [if_pos hge]
    · have hlen := length_getCurrentLevelColors_pos lv
      have hn : (0:ℚ) < ((getCurrentLevelColors lv).length : ℚ) := by
        exact_mod_cast hlen
      have hf0 : 0 ≤ ⌊u * ((getCurrentLevelColors lv).length : ℚ)⌋ :=
        Int.floor_nonneg.mpr (mul_nonneg h0 (le_of_lt hn))
      have hfl : ⌊u * ((getCurrentLevelColors lv).length : ℚ)⌋
          < ((getCurrentLevelColors lv).length : ℤ) := by
        refine Int.floor_lt.mpr ?_
        push_cast
        have := mul_lt_mul_of_pos_right h1 hn
        rwa [one_mul] at this
      omega

/-- Witness for C8 both below and at the spawn threshold. -/
theorem gate_spawn_step_witness :
    (∀ s t : ℕ, s ≤ t → obstacleFrequency t ≤ obstacleFrequency s ∧
      50 ≤ obstacleFrequency t) ∧
    (99 + 1 < obstacleFrequency 0 →
      spawnStep 0 1 (1/2) 99 [] = (99 + 1, [])) ∧
    (obstacleFrequency 0 ≤ 99 + 1 →
      spawnStep 0 1 (1/2) 99 [] =
        (0, [] ++
          [{ x := centerX, y := -gateHeight, width := gateWidth,
             height := gateHeight,
             colorIndex :=
               (⌊(1/2 : ℚ) * ((getCurrentLevelColors 1).length : ℚ)⌋).toNat,
             passed := false }]) ∧
      (⌊(1/2 : ℚ) * ((getCurrentLevelColors 1).length : ℚ)⌋).toNat
        < (getCurrentLevelColors 1).length ∧
      -gateHeight < (0:ℚ)) :=
  gate_spawn_step 0 1 99 (1/2) [] (by norm_num) (by norm_num)

/-- C9: a scoring collision that raises the level above the captured
level pauses the session with the level-up notification and commits the
new level; the resume acknowledgment clears the gate and particle
collections and resets the spawn timer while retaining score, level and
ball colour index. -/
theorem level_up_pause_resume (lv fs : ℕ) (bh : ℚ) (rs : ℕ → RandQuad)
    (g g2 : GameState) (o0 : Obstacle)
    (hrun : g.gameRunning = true) (hpopup : g.popup = none)
    (hpass : o0.passed = false)
    (hcol : collides g.ball bh (moveObstacle g.gameSpeed o0) = true)
    (hmatch : g.ball.colorIndex = o0.colorIndex)
    (hlvl : lv < levelOfScore (g.score + 10))
    (hpop2 : g2.popup = some Popup.levelUp) :
    (processObstacle lv fs bh rs g o0).1.gameRunning = false ∧
    (processObstacle lv fs bh rs g o0).1.popup = some Popup.levelUp ∧
    (processObstacle lv fs bh rs g o0).1.level
      = levelOfScore (g.score + 10) ∧
    (processObstacle lv fs bh rs g o0).1.score = g.score + 10 ∧
    (handlePopupAction g2).obstacles = [] ∧
    (handlePopupAction g2).particles = [] ∧
    (handlePopupAction g2).obstacleTimer = 0 ∧
    (handlePopupAction g2).gameRunning = true ∧
    (handlePopupAction g2).score = g2.score ∧
    (handlePopupAction g2).level = g2.level ∧
    (handlePopupAction g2).ball.colorIndex = g2.ball.colorIndex := by
  rw [processObstacle_eq_of_match lv fs bh rs g o0 hpass hcol hmatch]
  dsimp only
  have hne : ¬g2.popup = some Popup.gameOver := by
    rw [hpop2]
    simp
  refine ⟨?_, ?_, ?_, scoreUpdate_score lv g, ?_, ?_, ?_, ?_, ?_, ?_, ?_⟩
  · show (scoreUpdate lv g).gameRunning = false
    rw [scoreUpdate_gameRunning, if_pos hlvl]
  · show (scoreUpdate lv g).popup = some Popup.levelUp
    rw [scoreUpdate_popup, if_pos hlvl]
  · show (scoreUpdate lv g).level = levelOfScore (g.score + 10)
    rw [scoreUpdate_level, if_pos hlvl]
  all_goals simp only [handlePopupAction, if_neg hne]

/-- Witness for C9: score 190 crosses level 2 on a matching collision,
then the acknowledgment resumes a paused state. -/
theorem level_up_pause_resume_witness :
    (processObstacle 1 190 0 rs0 { g0 with score := 190 } gate0).1.gameRunning
      = false ∧
    (processObstacle 1 190 0 rs0 { g0 with score := 190 } gate0).1.popup
      = some Popup.levelUp ∧
    (processObstacle 1 190 0 rs0 { g0 with score := 190 } gate0).1.level
      = levelOfScore (({ g0 with score := 190 } : GameState).score + 10) ∧
    (processObstacle 1 190 0 rs0 { g0 with score := 190 } gate0).1.score
      = ({ g0 with score := 190 } : GameState).score + 10 ∧
    (handlePopupAction { g0 with popup := some Popup.levelUp }).obstacles
      = [] ∧
    (handlePopupAction { g0 with popup := some Popup.levelUp }).particles
      = [] ∧
    (handlePopupAction { g0 with popup := some Popup.levelUp }).obstacleTimer
      = 0 ∧
    (handlePopupAction { g0 with popup := some Popup.levelUp }).gameRunning
      = true ∧
    (handlePopupAction { g0 with popup := some Popup.levelUp }).score
      = ({ g0 with popup := some Popup.levelUp } : GameState).score ∧
    (handlePopupAction { g0 with popup := some Popup.levelUp }).level
      = ({ g0 with popup := some Popup.levelUp } : GameState).level ∧
    (handlePopupAction { g0 with popup := some Popup.levelUp }).ball.colorIndex
      = ({ g0 with popup := some Popup.levelUp } : GameState).ball.colorIndex :=
  level_up_pause_resume 1 190 0 rs0 { g0 with score := 190 }
    { g0 with popup := some Popup.levelUp } gate0 (by decide) (by decide)
    (by decide) (by norm_num [collides, moveObstacle, g0, ball0, gate0])
    (by decide) (by decide) (by decide)

/-- C10: the session high score is monotonically non-decreasing: it is
updated only at game over, to the maximum of the current score and the
previous high score, and no acknowledgment reset or other handler
decreases it. -/
theorem high_score_monotone (g : GameState) (fs lv : ℕ) (bh : ℚ)
    (rs : ℕ → RandQuad) (o0 : Obstacle) :
    (handleGameOver fs g).highScore = max fs g.highScore ∧
    g.highScore ≤ (handleGameOver fs g).highScore ∧
    (handlePopupAction g).highScore = g.highScore ∧
    g.highScore ≤ (processObstacle lv fs bh rs g o0).1.highScore ∧
    (changeColor lv g).highScore = g.highScore := by
  refine ⟨rfl, le_max_right _ _, ?_, ?_, ?_⟩
  · unfold handlePopupAction
    split <;> rfl
  · by_cases hp : o0.passed = true
    · rw [processObstacle_eq_of_passed lv fs bh rs g o0 hp]
    · have hp' : o0.passed = false := by simpa using hp
      by_cases hc : collides g.ball bh (moveObstacle g.gameSpeed o0) = true
      · by_cases hm : g.ball.colorIndex = o0.colorIndex
        · rw [processObstacle_eq_of_match lv fs bh rs g o0 hp' hc hm]
          dsimp only
          show g.highScore ≤ (scoreUpdate lv g).highScore
          rw [scoreUpdate_highScore]
        · rw [processObstacle_eq_of_mismatch lv fs bh rs g o0 hp' hc hm]
          exact le_max_right fs g.highScore
      · have hc' : collides g.ball bh (moveObstacle g.gameSpeed o0)
            = false := by simpa using hc
        rw [processObstacle_eq_of_no_collision lv fs bh rs g o0 hc']
  · unfold changeColor
    split <;> rfl

end ColorMatch
